import Mathlib

/-
Verification of the AI-provider credential subsystem of the diagramahub
backend: data model (schemas.py), credential masking (core/security.py),
the settings repository (ai_providers/repository.py), the client factory
(ai_providers/clients/factory.py) and the orchestration service
(ai_providers/services.py), embedded shallowly.  Persistence is modelled
as the per-user document `Option UserAISettingsInDB` threaded through the
operations; `datetime.utcnow()` is an explicit `now : Nat` argument; the
Fernet vault is a pair of string functions; the outbound Gemini API is an
oracle `AIEnv`.  Python exceptions become an explicit `PyError` sum:
an operation that raises before `settings.save()` leaves the stored
document unchanged, which the service-level definitions make explicit by
returning the (unchanged) state next to the error.
-/

/-- The four provider kinds of `AIProviderType` in schemas.py. -/
inductive AIProviderType
  | gemini
  | openai
  | claude
  | deepseek
deriving DecidableEq

/-- `AIProviderConfig` from schemas.py.  `parameters : Dict[str, Any]` is
modelled as an association list; timestamps as naturals. -/
structure AIProviderConfig where
  provider : AIProviderType
  api_key : String
  model : String
  is_active : Bool
  is_default : Bool
  parameters : List (String × String)
  display_name : Option String
  created_at : Nat
  updated_at : Nat
deriving DecidableEq

/-- `UserAISettingsInDB` from schemas.py: the per-user aggregate document. -/
structure UserAISettingsInDB where
  user_id : String
  providers : List AIProviderConfig
  auto_generate_on_save : Bool
  default_provider : Option AIProviderType
  created_at : Nat
  updated_at : Nat
deriving DecidableEq

/-- The credential vault of core/security.py: `encrypt_api_key` /
`decrypt_api_key` over a fixed process-wide Fernet key, abstracted as a
pair of string functions. -/
structure Vault where
  encrypt : String → String
  decrypt : String → String

def maskHidden : String := "***"

def maskDots : String := "..."

/-- `mask_api_key` from core/security.py:
`if len(api_key) <= 8: return "***"` else `api_key[:4] + "..." + api_key[-3:]`. -/
def mask_api_key (api_key : String) : String :=
  if api_key.length ≤ 8 then maskHidden
  else api_key.take 4 ++ maskDots ++ api_key.drop (api_key.length - 3)

deriving instance DecidableEq for Except

/-- Python exceptions that appear in the subsystem. -/
inductive PyError
  | valueError (msg : String)
  | indexError (msg : String)
  | typeError (msg : String)
  | notImplementedError (msg : String)
  | httpException (status_code : Nat) (detail : String)
deriving DecidableEq

def msgProviderNotFound : String := "Provider not found"

def msgUserSettingsNotFound : String := "User settings not found"

def msgProviderNotConfigured : String := "Provider not configured for user"

def msgIndexOutOfRange : String := "list index out of range"

/-- Python list indexing: an index `i` into a list of length `n` is valid
iff `-n ≤ i < n`; a negative index addresses position `n + i`. -/
def pyIndex (n : Nat) (i : Int) : Option Nat :=
  if 0 ≤ i then
    if i < (n : Int) then some i.toNat else none
  else if 0 ≤ i + (n : Int) then some (i + (n : Int)).toNat else none

/-- `AIProviderRepository.create_user_settings`: fresh empty aggregate. -/
def AIProviderRepository.create_user_settings (user_id : String) (now : Nat) :
    UserAISettingsInDB :=
  { user_id := user_id
    providers := []
    auto_generate_on_save := false
    default_provider := none
    created_at := now
    updated_at := now }

/-- `AIProviderRepository.add_provider`: get-or-create the aggregate,
encrypt the incoming key in place, append the config; if the list now has
one element or the config is marked default, record its kind as the
default, clear `is_default` on every earlier entry and set it on the
appended one; stamp `updated_at` and save. -/
def AIProviderRepository.add_provider (vault : Vault) (now : Nat)
    (user_id : String) (st : Option UserAISettingsInDB)
    (provider_data : AIProviderConfig) : UserAISettingsInDB :=
  let settings :=
    match st with
    | some s => s
    | none => AIProviderRepository.create_user_settings user_id now
  let provider_data :=
    { provider_data with api_key := vault.encrypt provider_data.api_key }
  let providers := settings.providers ++ [provider_data]
  let settings :=
    if providers.length = 1 ∨ provider_data.is_default = true then
      { settings with
        default_provider := some provider_data.provider
        providers :=
          settings.providers.map (fun p => { p with is_default := false })
            ++ [{ provider_data with is_default := true }] }
    else { settings with providers := providers }
  { settings with updated_at := now }

/-- The `for i, p in enumerate(settings.providers): if i != provider_index:
p.is_default = False` loop of `update_provider`, with the enumeration
counter made explicit.  The comparison is between Python ints, so a
negative `provider_index` differs from every counter value. -/
def clearOthers (provider_index : Int) : Nat → List AIProviderConfig →
    List AIProviderConfig
  | _, [] => []
  | j, p :: rest =>
    (if (j : Int) ≠ provider_index then { p with is_default := false } else p)
      :: clearOthers provider_index (j + 1) rest

/-- `AIProviderRepository.update_provider`: raises `ValueError` when the
user has no settings or `provider_index >= len(providers)`; re-encrypts
the key only when a non-empty key was supplied; assigns
`providers[provider_index] = provider_data` (Python indexing, so negative
indexes address from the end and too-negative ones raise `IndexError`);
when the new config is marked default, records its kind and clears the
flag on every position whose enumeration index differs from
`provider_index`. -/
def AIProviderRepository.update_provider (vault : Vault) (now : Nat)
    (st : Option UserAISettingsInDB) (provider_index : Int)
    (provider_data : AIProviderConfig) : Except PyError UserAISettingsInDB :=
  match st with
  | none => .error (.valueError msgProviderNotFound)
  | some settings =>
    if (settings.providers.length : Int) ≤ provider_index then
      .error (.valueError msgProviderNotFound)
    else
      let provider_data :=
        if provider_data.api_key ≠ "" then
          { provider_data with api_key := vault.encrypt provider_data.api_key }
        else provider_data
      match pyIndex settings.providers.length provider_index with
      | none => .error (.indexError msgIndexOutOfRange)
      | some i =>
        let settings :=
          { settings with providers := settings.providers.set i provider_data }
        let settings :=
          if provider_data.is_default = true then
            { settings with
              default_provider := some provider_data.provider
              providers := clearOthers provider_index 0 settings.providers }
          else settings
        .ok { settings with updated_at := now }

/-- `AIProviderRepository.remove_provider`: raises `ValueError` when the
user has no settings or `provider_index >= len(providers)`; pops the
entry (Python indexing); if the removed entry was default and entries
remain, marks the first remaining entry default and records its kind;
otherwise, if the list became empty, clears the default field. -/
def AIProviderRepository.remove_provider (now : Nat)
    (st : Option UserAISettingsInDB) (provider_index : Int) :
    Except PyError UserAISettingsInDB :=
  match st with
  | none => .error (.valueError msgProviderNotFound)
  | some settings =>
    if (settings.providers.length : Int) ≤ provider_index then
      .error (.valueError msgProviderNotFound)
    else
      match pyIndex settings.providers.length provider_index with
      | none => .error (.indexError msgIndexOutOfRange)
      | some i =>
        match settings.providers.get? i with
        | none => .error (.indexError msgIndexOutOfRange)
        | some removed_provider =>
          let settings :=
            { settings with providers := settings.providers.eraseIdx i }
          let settings :=
            if removed_provider.is_default = true ∧ 0 < settings.providers.length then
              match settings.providers with
              | [] => settings
              | p0 :: rest =>
                { settings with
                  providers := { p0 with is_default := true } :: rest
                  default_provider := some p0.provider }
            else if settings.providers.length = 0 then
              { settings with default_provider := none }
            else settings
          .ok { settings with updated_at := now }

/-- `AIProviderRepository.set_default_provider`: sets `is_default` on
every entry of the requested kind and clears it on every other entry;
raises `ValueError` (before saving, so the stored document is unchanged)
when no entry matches; otherwise records the kind and saves. -/
def AIProviderRepository.set_default_provider (now : Nat)
    (st : Option UserAISettingsInDB) (provider : AIProviderType) :
    Except PyError UserAISettingsInDB :=
  match st with
  | none => .error (.valueError msgUserSettingsNotFound)
  | some settings =>
    let found := settings.providers.any (fun p => decide (p.provider = provider))
    if found = false then
      .error (.valueError msgProviderNotConfigured)
    else
      .ok { settings with
            providers := settings.providers.map (fun p =>
              if p.provider = provider then { p with is_default := true }
              else { p with is_default := false })
            default_provider := some provider
            updated_at := now }

/-- `AIProviderRepository.update_auto_generate`: get-or-create, set the
flag, stamp `updated_at`, save. -/
def AIProviderRepository.update_auto_generate (now : Nat) (user_id : String)
    (st : Option UserAISettingsInDB) (auto_generate : Bool) :
    UserAISettingsInDB :=
  let settings :=
    match st with
    | some s => s
    | none => AIProviderRepository.create_user_settings user_id now
  { settings with auto_generate_on_save := auto_generate, updated_at := now }

/-- The scan loop of `get_active_provider`: first entry matching the
target kind that is marked active, returned as a copy with the key
decrypted. -/
def findActive (vault : Vault) (target : AIProviderType) :
    List AIProviderConfig → Option AIProviderConfig
  | [] => none
  | p :: rest =>
    if p.provider = target ∧ p.is_active = true then
      some { p with api_key := vault.decrypt p.api_key }
    else findActive vault target rest

/-- `target_provider = provider_type or settings.default_provider`: Python
`or` on an optional enum whose values are non-empty strings, hence truthy
whenever present. -/
def resolvedKind (provider_type : Option AIProviderType)
    (settings : UserAISettingsInDB) : Option AIProviderType :=
  provider_type.orElse (fun _ => settings.default_provider)

/-- `AIProviderRepository.get_active_provider`: none when the user has no
settings or no providers; target kind is the explicit argument, else the
recorded default (none when neither); then the first active entry of the
target kind, with the key decrypted.  The stored document is never
written (no `save()` call), which the embedding reflects by returning no
state. -/
def AIProviderRepository.get_active_provider (vault : Vault)
    (st : Option UserAISettingsInDB) (provider_type : Option AIProviderType) :
    Option AIProviderConfig :=
  match st with
  | none => none
  | some settings =>
    if settings.providers = [] then none
    else
      match resolvedKind provider_type settings with
      | none => none
      | some target => findActive vault target settings.providers

/-- The outbound Gemini API as consumed by `GeminiClient.validate_api_key`:
for a given key, either the number of models `genai.list_models()` would
return, or `none` when the call raises. -/
structure AIEnv where
  gemini_models : String → Option Nat

/-- `GeminiClient` from clients/gemini_client.py (the only instantiable
client: it overrides every abstract method of `BaseAIClient`). -/
structure GeminiClient where
  api_key : String
  model : String
  parameters : List (String × String)
deriving DecidableEq

/-- `GeminiClient.validate_api_key`: lists models and reports whether any
exist; any exception is caught and yields `false`, never a raise. -/
def GeminiClient.validate_api_key (env : AIEnv) (c : GeminiClient) : Bool :=
  match env.gemini_models c.api_key with
  | some n => decide (0 < n)
  | none => false

def msgOpenAIAbstract : String :=
  "Cannot instantiate abstract class OpenAIClient with abstract methods generate_diagram, improve_diagram"

def msgOpenAIFuture : String := "OpenAI client will be implemented in the future"

def msgUnsupportedClaude : String := "Unsupported provider: claude"

def msgUnsupportedDeepseek : String := "Unsupported provider: deepseek"

/-- Constructing `OpenAIClient` from clients/openai_client.py.  The class
overrides `generate_description`, `validate_api_key` and `provider_name`
but not the abstract `generate_diagram` / `improve_diagram`, so it is
still abstract and `OpenAIClient(...)` raises `TypeError` from the ABC
machinery; the `NotImplementedError` in its `__init__` body is
unreachable. -/
def OpenAIClient.construct (api_key : String) (model : String)
    (parameters : List (String × String)) : Except PyError GeminiClient :=
  .error (.typeError msgOpenAIAbstract)

/-- The body of `OpenAIClient.validate_api_key` (as written, were an
instance ever obtained): raises `NotImplementedError`. -/
def OpenAIClient.validate_api_key : Except PyError Bool :=
  .error (.notImplementedError msgOpenAIFuture)

/-- The body of `OpenAIClient.generate_description`: raises
`NotImplementedError`. -/
def OpenAIClient.generate_description (diagram_code : String)
    (diagram_type : String) (language : String) : Except PyError String :=
  .error (.notImplementedError msgOpenAIFuture)

/-- A constructed client.  Only the Gemini variant exists: Claude and
Deepseek have no registered class and OpenAI cannot be instantiated. -/
inductive AIClient
  | gemini (c : GeminiClient)
deriving DecidableEq

/-- `client.validate_api_key()` on a constructed client. -/
def AIClient.validate_api_key (env : AIEnv) : AIClient → Bool
  | .gemini c => GeminiClient.validate_api_key env c

/-- `AIClientFactory.create_client` from clients/factory.py: the map holds
Gemini and OpenAI; an unmapped kind (claude, deepseek) raises
`ValueError("Unsupported provider: ...")`; OpenAI resolves to its class,
whose instantiation raises `TypeError` (see `OpenAIClient.construct`);
Gemini constructs. -/
def AIClientFactory.create_client (provider : AIProviderType)
    (api_key : String) (model : String)
    (parameters : List (String × String)) : Except PyError AIClient :=
  match provider with
  | .gemini => .ok (.gemini { api_key := api_key, model := model, parameters := parameters })
  | .openai =>
    match OpenAIClient.construct api_key model parameters with
    | .error e => .error e
    | .ok c => .ok (.gemini c)
  | .claude => .error (.valueError msgUnsupportedClaude)
  | .deepseek => .error (.valueError msgUnsupportedDeepseek)

/-- `AIProviderResponse` from schemas.py: one provider in a settings view,
with the api_key field holding the masked rendering. -/
structure AIProviderResponse where
  provider : AIProviderType
  api_key : String
  model : String
  is_active : Bool
  is_default : Bool
  parameters : List (String × String)
  display_name : Option String
  created_at : Nat
  updated_at : Nat
deriving DecidableEq

/-- `UserAISettingsResponse` from schemas.py. -/
structure UserAISettingsResponse where
  user_id : String
  providers : List AIProviderResponse
  auto_generate_on_save : Bool
  default_provider : Option AIProviderType
  created_at : Nat
  updated_at : Nat
deriving DecidableEq

/-- The masking step of `AIProviderService.get_user_settings`:
`provider_dict["api_key"] = mask_api_key(provider.api_key)` applied to the
stored config (whose `api_key` field holds the ciphertext). -/
def maskProvider (p : AIProviderConfig) : AIProviderResponse :=
  { provider := p.provider
    api_key := mask_api_key p.api_key
    model := p.model
    is_active := p.is_active
    is_default := p.is_default
    parameters := p.parameters
    display_name := p.display_name
    created_at := p.created_at
    updated_at := p.updated_at }

/-- `AIProviderService.get_user_settings`: creates default settings when
absent (a state change), then returns the view with every stored key
passed through `mask_api_key`. -/
def AIProviderService.get_user_settings (now : Nat) (user_id : String)
    (st : Option UserAISettingsInDB) :
    Option UserAISettingsInDB × UserAISettingsResponse :=
  let settings :=
    match st with
    | some s => s
    | none => AIProviderRepository.create_user_settings user_id now
  (some settings,
    { user_id := settings.user_id
      providers := settings.providers.map maskProvider
      auto_generate_on_save := settings.auto_generate_on_save
      default_provider := settings.default_provider
      created_at := settings.created_at
      updated_at := settings.updated_at })

def msgInvalidApiKey : String := "Invalid API key"

def msgNotYetSupported : String := "Provider is not yet supported"

/-- `AIProviderService.add_provider`: builds a throwaway client with the
plaintext key and validates it; `NotImplementedError` maps to a 501
response, `ValueError` to a 400, an invalid key to a 400; any other
exception (the `TypeError` from the abstract `OpenAIClient`) propagates
untranslated.  Only on successful validation is
`AIProviderRepository.add_provider` invoked, after which the masked view
is re-read; on every error path the stored document is returned
unchanged. -/
def AIProviderService.add_provider (vault : Vault) (env : AIEnv) (now : Nat)
    (user_id : String) (st : Option UserAISettingsInDB)
    (provider_data : AIProviderConfig) :
    Option UserAISettingsInDB × Except PyError UserAISettingsResponse :=
  match AIClientFactory.create_client provider_data.provider
      provider_data.api_key provider_data.model provider_data.parameters with
  | .error (.notImplementedError _) =>
    (st, .error (.httpException 501 msgNotYetSupported))
  | .error (.valueError msg) => (st, .error (.httpException 400 msg))
  | .error e => (st, .error e)
  | .ok client =>
    if AIClient.validate_api_key env client = false then
      (st, .error (.httpException 400 msgInvalidApiKey))
    else
      let settings :=
        AIProviderRepository.add_provider vault now user_id st provider_data
      let view := AIProviderService.get_user_settings now user_id (some settings)
      (view.1, .ok view.2)

/-- `AIProviderService.test_provider`: builds a throwaway client and
validates, persisting nothing; `NotImplementedError` maps to a 501
response; every other exception (including the factory `ValueError` for
claude/deepseek and the `TypeError` for openai) is swallowed by the
`except Exception: return False` clause. -/
def AIProviderService.test_provider (env : AIEnv) (provider : AIProviderType)
    (api_key : String) (model : String) : Except PyError Bool :=
  match AIClientFactory.create_client provider api_key model [] with
  | .ok client => .ok (AIClient.validate_api_key env client)
  | .error (.notImplementedError _) =>
    .error (.httpException 501 msgNotYetSupported)
  | .error _ => .ok false

def encPrefix : String := "enc-"

/-- A concrete executable vault used for concrete runs: a reversible
stand-in for the Fernet cipher (a real Fernet token is an opaque base64
string bearing no prefix of the plaintext). -/
def vault0 : Vault :=
  { encrypt := fun k => encPrefix ++ k, decrypt := fun c => c.drop 4 }

/-- An environment in which the Gemini key validates (three models listed). -/
def envValid : AIEnv := { gemini_models := fun _ => some 3 }

/-- An environment in which `list_models` raises for every key. -/
def envInvalid : AIEnv := { gemini_models := fun _ => none }

def keyValid : String := "validkey123456"

def modelLite : String := "gemini-2.0-flash-lite"

def modelGpt : String := "gpt-4"

/-- A Gemini config marked default, as a caller would submit it. -/
def cfgGeminiDefault : AIProviderConfig :=
  { provider := .gemini
    api_key := keyValid
    model := modelLite
    is_active := true
    is_default := true
    parameters := []
    display_name := none
    created_at := 0
    updated_at := 0 }

/-- A Gemini config not marked default. -/
def cfgGeminiPlain : AIProviderConfig :=
  { cfgGeminiDefault with is_default := false }

/-- An OpenAI config, as a caller would submit it. -/
def cfgOpenai : AIProviderConfig :=
  { cfgGeminiDefault with provider := .openai, model := modelGpt, is_default := false }

/-- A Deepseek config. -/
def cfgDeepseek : AIProviderConfig :=
  { cfgGeminiDefault with provider := .deepseek, is_default := false }

/-- One repository mutation, with its arguments. -/
inductive ProviderOp
  | add (cfg : AIProviderConfig)
  | update (idx : Int) (cfg : AIProviderConfig)
  | remove (idx : Int)
  | setDefault (kind : AIProviderType)
deriving DecidableEq

/-- Executes one repository operation against the stored document; an
operation that raises leaves the document as it was (nothing was saved). -/
def applyOp (vault : Vault) (now : Nat) (user_id : String)
    (st : Option UserAISettingsInDB) : ProviderOp → Option UserAISettingsInDB
  | .add cfg => some (AIProviderRepository.add_provider vault now user_id st cfg)
  | .update idx cfg =>
    match AIProviderRepository.update_provider vault now st idx cfg with
    | .ok s => some s
    | .error _ => st
  | .remove idx =>
    match AIProviderRepository.remove_provider now st idx with
    | .ok s => some s
    | .error _ => st
  | .setDefault kind =>
    match AIProviderRepository.set_default_provider now st kind with
    | .ok s => some s
    | .error _ => st

/-- Runs a sequence of repository operations. -/
def runOps (vault : Vault) (now : Nat) (user_id : String)
    (st : Option UserAISettingsInDB) (ops : List ProviderOp) :
    Option UserAISettingsInDB :=
  ops.foldl (applyOp vault now user_id) st

/-- Number of entries with `is_default = true`. -/
def defaultCount : List AIProviderConfig → Nat
  | [] => 0
  | p :: l => (if p.is_default then 1 else 0) + defaultCount l

/-- Number of entries of a given provider kind. -/
def kindCount (kind : AIProviderType) : List AIProviderConfig → Nat
  | [] => 0
  | p :: l => (if p.provider = kind then 1 else 0) + kindCount kind l

/-- The single-default property of the claim: at most one entry is
default, and exactly one whenever the list is non-empty. -/
def singleDefaultOK : Option UserAISettingsInDB → Bool
  | none => true
  | some s =>
    decide (defaultCount s.providers ≤ 1) &&
      (s.providers.isEmpty || decide (defaultCount s.providers = 1))

/-- The side conditions under which the repository operations do preserve
the single-default property: an update must address a non-negative index
and must not demote the entry it replaces if that entry is the default,
and a set-default must target a kind configured at most once. -/
def opGuard (st : Option UserAISettingsInDB) : ProviderOp → Bool
  | .add _ => true
  | .remove _ => true
  | .update idx cfg =>
    decide (0 ≤ idx) &&
      (cfg.is_default ||
        (match st with
         | none => true
         | some s =>
           match s.providers.get? idx.toNat with
           | none => true
           | some p => !p.is_default))
  | .setDefault kind =>
    match st with
    | none => true
    | some s => decide (kindCount kind s.providers ≤ 1)

/-- `opGuard` holding at every step of a run. -/
def guardsHold (vault : Vault) (now : Nat) (user_id : String) :
    Option UserAISettingsInDB → List ProviderOp → Bool
  | _, [] => true
  | st, op :: rest =>
    opGuard st op && guardsHold vault now user_id (applyOp vault now user_id st op) rest

def userU : String := "u"

/-- The masked rendering the spec expects for `"validkey123456"`. -/
def maskedClaim : String := "vali...456"

def keyAIza : String := "AIzaSyABCDEF123"

def maskAIza : String := "AIza...123"

def keyShort : String := "short"

/-- A populated aggregate used to instantiate the frame theorem. -/
def settingsSample : UserAISettingsInDB :=
  { user_id := userU
    providers := [cfgGeminiDefault]
    auto_generate_on_save := false
    default_provider := some .gemini
    created_at := 5
    updated_at := 5 }

/-- The stored (encrypted-at-rest) form of `cfgGeminiDefault`. -/
def cfgStoredGemini : AIProviderConfig :=
  { cfgGeminiDefault with api_key := vault0.encrypt keyValid }

/-- An aggregate holding one stored provider. -/
def sOne : UserAISettingsInDB :=
  { user_id := userU
    providers := [cfgStoredGemini]
    auto_generate_on_save := false
    default_provider := some .gemini
    created_at := 1
    updated_at := 1 }

/-- The stored form of `cfgOpenai`. -/
def cfgStoredOpenai : AIProviderConfig :=
  { cfgOpenai with api_key := vault0.encrypt keyValid }

/-- An aggregate holding a default Gemini entry followed by an OpenAI entry. -/
def sTwo : UserAISettingsInDB :=
  { user_id := userU
    providers := [cfgStoredGemini, cfgStoredOpenai]
    auto_generate_on_save := false
    default_provider := some .gemini
    created_at := 1
    updated_at := 1 }

def modelPro : String := "gemini-pro"

/-- A second stored Gemini entry (same kind, different model), active. -/
def cfgStoredGemini2 : AIProviderConfig :=
  { cfgStoredGemini with model := modelPro, is_default := false }

/-- An aggregate with two active entries of the same kind. -/
def sDup : UserAISettingsInDB :=
  { sTwo with providers := [cfgStoredGemini, cfgStoredGemini2] }

/-- A guarded operation sequence exercising every operation kind. -/
def opsW : List ProviderOp :=
  [ProviderOp.add cfgGeminiDefault
  , ProviderOp.add cfgOpenai
  , ProviderOp.setDefault .openai
  , ProviderOp.remove 0
  , ProviderOp.update 0 { cfgOpenai with is_default := true }]

theorem string_length_take (s : String) (n : Nat) :
    (s.take n).length = min n s.length := by
  rw [String.take_eq]
  exact List.length_take n s.data

theorem string_length_drop (s : String) (n : Nat) :
    (s.drop n).length = s.length - n := by
  rw [String.drop_eq]
  exact List.length_drop n s.data

/-- C8 (amended): `mask_api_key` returns exactly `"***"` for keys of
length at most 8 and `k[0:4] ++ "..." ++ k[-3:]` for longer keys; it is
total (never raises); and it can return the full key only for the
degenerate inputs that coincide with their own mask, namely `"***"`
itself or a key of length exactly 10. -/
theorem mask_api_key_spec (k : String) :
    (k.length ≤ 8 → mask_api_key k = maskHidden)
  ∧ (8 < k.length →
      mask_api_key k = k.take 4 ++ maskDots ++ k.drop (k.length - 3))
  ∧ (mask_api_key k = k → k = maskHidden ∨ k.length = 10) := by
  refine ⟨fun h => by rw [mask_api_key, if_pos h], fun h => by
    rw [mask_api_key, if_neg (by omega)], fun hmk => ?_⟩
  by_cases h : k.length ≤ 8
  · left
    rw [mask_api_key, if_pos h] at hmk
    exact hmk.symm
  · right
    have hlen : (mask_api_key k).length = 10 := by
      rw [mask_api_key, if_neg h]
      rw [String.length_append, String.length_append, string_length_take,
        string_length_drop]
      have h3 : maskDots.length = 3 := by decide
      omega
    rw [hmk] at hlen
    exact hlen

/-- C8 counterexample: on the input `"***"` (length 3, so the short
branch applies) `mask_api_key` returns its argument unchanged, i.e. the
full key, refuting the claim that it never returns the full key. -/
theorem mask_returns_full_key_counterexample :
    mask_api_key maskHidden = maskHidden := by decide

/-- C8 witness: the masking formula evaluated on the spec example key and
on a short key. -/
theorem mask_api_key_spec_witness :
    mask_api_key keyAIza = keyAIza.take 4 ++ maskDots ++ keyAIza.drop (keyAIza.length - 3)
  ∧ mask_api_key keyAIza = maskAIza
  ∧ mask_api_key keyShort = maskHidden :=
  ⟨(mask_api_key_spec keyAIza).2.1 (by decide), by decide,
   (mask_api_key_spec keyShort).1 (by decide)⟩

/-- C10 (confirmed): `update_auto_generate` creates an empty aggregate
when none exists and otherwise changes only `auto_generate_on_save` and
`updated_at`, leaving providers, default_provider, user_id and created_at
untouched (expressed by the record-update equations). -/
theorem update_auto_generate_frame (now : Nat) (user_id : String)
    (st : Option UserAISettingsInDB) (auto_generate : Bool) :
    (∀ s, st = some s →
      AIProviderRepository.update_auto_generate now user_id st auto_generate =
        { s with auto_generate_on_save := auto_generate, updated_at := now })
  ∧ (st = none →
      AIProviderRepository.update_auto_generate now user_id st auto_generate =
        { AIProviderRepository.create_user_settings user_id now with
            auto_generate_on_save := auto_generate }) := by
  constructor
  · intro s hs
    subst hs
    rfl
  · intro hs
    subst hs
    rfl

/-- C10 witness: the frame equations at a populated aggregate and at a
missing one. -/
theorem update_auto_generate_frame_witness :
    AIProviderRepository.update_auto_generate 9 userU (some settingsSample) true =
      { settingsSample with auto_generate_on_save := true, updated_at := 9 }
  ∧ AIProviderRepository.update_auto_generate 9 userU none true =
      { AIProviderRepository.create_user_settings userU 9 with
          auto_generate_on_save := true } :=
  ⟨(update_auto_generate_frame 9 userU (some settingsSample) true).1 settingsSample rfl,
   (update_auto_generate_frame 9 userU none true).2 rfl⟩

/-- C2 (code_bug): the settings view returned by the service masks the
stored ciphertext, not the plaintext: after a successful `add_provider`
with plaintext key `"validkey123456"` the sole displayed key equals
`mask_api_key (encrypt "validkey123456")`, which differs from the
`"vali...456"` the claim (and `mask_api_key`'s own docstring, which says
its argument is the plaintext) requires. -/
theorem settings_view_masks_ciphertext :
    ((AIProviderService.add_provider vault0 envValid 1 userU none cfgGeminiDefault).2.map
        (fun r => r.providers.map (fun p => p.api_key)))
      = .ok [mask_api_key (vault0.encrypt keyValid)]
  ∧ mask_api_key keyValid = maskedClaim
  ∧ mask_api_key (vault0.encrypt keyValid) ≠ maskedClaim := by decide

/-- C3 (amended): construction fails for every unimplemented or unknown
kind, but not with a uniformly surfaced not-implemented category: openai
fails with the abstract-class `TypeError` (its `NotImplementedError`
constructor body being unreachable, though its written method bodies
would raise `NotImplementedError`), claude and deepseek with the factory
`ValueError`; `test_provider` swallows all of these and returns false,
and `add_provider` maps the `ValueError` to a 400 bad-request — the 501
not-implemented translation is dead code. -/
theorem unsupported_provider_surfacing :
    AIClientFactory.create_client .openai keyValid modelGpt [] =
      .error (.typeError msgOpenAIAbstract)
  ∧ AIProviderService.test_provider envValid .openai keyValid modelGpt = .ok false
  ∧ AIClientFactory.create_client .claude keyValid modelLite [] =
      .error (.valueError msgUnsupportedClaude)
  ∧ AIProviderService.test_provider envValid .claude keyValid modelLite = .ok false
  ∧ AIClientFactory.create_client .deepseek keyValid modelLite [] =
      .error (.valueError msgUnsupportedDeepseek)
  ∧ AIProviderService.test_provider envValid .deepseek keyValid modelLite = .ok false
  ∧ OpenAIClient.validate_api_key = .error (.notImplementedError msgOpenAIFuture)
  ∧ (AIProviderService.add_provider vault0 envValid 1 userU none cfgDeepseek).2 =
      .error (.httpException 400 msgUnsupportedDeepseek) := by decide

/-- C3 counterexample: `test_provider` returns false for the deepseek and
openai kinds instead of surfacing a distinct not-implemented error, so
callers cannot distinguish an unimplemented kind from a bad key. -/
theorem test_provider_swallows_unsupported_counterexample :
    AIProviderService.test_provider envValid .deepseek keyValid modelLite = .ok false
  ∧ AIProviderService.test_provider envValid .openai keyValid modelGpt = .ok false := by decide

/-- C7 counterexample: adding an openai config is rejected with the
propagated abstract-class `TypeError`, not the claimed not-implemented
category (the stored settings are nevertheless unchanged). -/
theorem add_provider_openai_counterexample :
    AIProviderService.add_provider vault0 envValid 1 userU none cfgOpenai =
      (none, .error (.typeError msgOpenAIAbstract)) := by decide

/-- C7 (amended): add-time validation is atomic.  A gemini config whose
key fails validation is rejected 400 with the stored settings unchanged;
an openai config fails construction with an uncaught `TypeError` (not the
not-implemented category), settings unchanged; claude and deepseek are
rejected 400, settings unchanged; and only on successful validation is
the repository `add_provider` invoked, the new state being exactly its
result and the response its masked view. -/
theorem add_provider_validation_atomic (vault : Vault) (env : AIEnv) (now : Nat)
    (user_id : String) (st : Option UserAISettingsInDB) (cfg : AIProviderConfig) :
    (cfg.provider = .gemini →
      GeminiClient.validate_api_key env
          { api_key := cfg.api_key, model := cfg.model, parameters := cfg.parameters } = false →
      AIProviderService.add_provider vault env now user_id st cfg =
        (st, .error (.httpException 400 msgInvalidApiKey)))
  ∧ (cfg.provider = .openai →
      AIProviderService.add_provider vault env now user_id st cfg =
        (st, .error (.typeError msgOpenAIAbstract)))
  ∧ (cfg.provider = .claude →
      AIProviderService.add_provider vault env now user_id st cfg =
        (st, .error (.httpException 400 msgUnsupportedClaude)))
  ∧ (cfg.provider = .deepseek →
      AIProviderService.add_provider vault env now user_id st cfg =
        (st, .error (.httpException 400 msgUnsupportedDeepseek)))
  ∧ (cfg.provider = .gemini →
      GeminiClient.validate_api_key env
          { api_key := cfg.api_key, model := cfg.model, parameters := cfg.parameters } = true →
      AIProviderService.add_provider vault env now user_id st cfg =
        (some (AIProviderRepository.add_provider vault now user_id st cfg),
          .ok (AIProviderService.get_user_settings now user_id
            (some (AIProviderRepository.add_provider vault now user_id st cfg))).2)) := by
  refine ⟨?_, ?_, ?_, ?_, ?_⟩
  · intro hk hv
    simp [AIProviderService.add_provider, AIClientFactory.create_client, hk,
      AIClient.validate_api_key, hv]
  · intro hk
    simp [AIProviderService.add_provider, AIClientFactory.create_client, hk,
      OpenAIClient.construct]
  · intro hk
    simp [AIProviderService.add_provider, AIClientFactory.create_client, hk]
  · intro hk
    simp [AIProviderService.add_provider, AIClientFactory.create_client, hk]
  · intro hk hv
    simp [AIProviderService.add_provider, AIClientFactory.create_client, hk,
      AIClient.validate_api_key, hv, AIProviderService.get_user_settings]

/-- C7 witness: the three outcomes at concrete inputs — invalid gemini
key rejected with unchanged state, deepseek rejected with unchanged
state, valid gemini persisted through the repository. -/
theorem add_provider_validation_atomic_witness :
    AIProviderService.add_provider vault0 envInvalid 3 userU (some settingsSample) cfgGeminiPlain =
      (some settingsSample, .error (.httpException 400 msgInvalidApiKey))
  ∧ AIProviderService.add_provider vault0 envValid 3 userU (some settingsSample) cfgDeepseek =
      (some settingsSample, .error (.httpException 400 msgUnsupportedDeepseek))
  ∧ AIProviderService.add_provider vault0 envValid 3 userU none cfgGeminiDefault =
      (some (AIProviderRepository.add_provider vault0 3 userU none cfgGeminiDefault),
        .ok (AIProviderService.get_user_settings 3 userU
          (some (AIProviderRepository.add_provider vault0 3 userU none cfgGeminiDefault))).2) :=
  ⟨(add_provider_validation_atomic vault0 envInvalid 3 userU (some settingsSample) cfgGeminiPlain).1
      rfl (by decide),
   (add_provider_validation_atomic vault0 envValid 3 userU (some settingsSample) cfgDeepseek).2.2.2.1 rfl,
   (add_provider_validation_atomic vault0 envValid 3 userU none cfgGeminiDefault).2.2.2.2
      rfl (by decide)⟩

theorem clearOthers_length (idx : Int) :
    ∀ (l : List AIProviderConfig) (j : Nat), (clearOthers idx j l).length = l.length := by
  intro l
  induction l with
  | nil =>
    intro j
    rfl
  | cons p rest ih =>
    intro j
    simp only [clearOthers, List.length_cons, ih]

/-- C4 (amended): `update_provider` and `remove_provider` fail with the
`ValueError("Provider not found")` mapped to NotFound exactly when the
user has no settings or the index is at least the list length; a Python
index in `[-len, len)` succeeds (negative values address from the end),
updating in place or removing one entry; an index below `-len` raises an
`IndexError` instead, which the service layer does not translate to
NotFound. -/
theorem update_remove_index_bounds (vault : Vault) (now : Nat)
    (st : Option UserAISettingsInDB) (idx : Int) (cfg : AIProviderConfig) :
    ((st = none ∨ ∃ s, st = some s ∧ (s.providers.length : Int) ≤ idx) →
      AIProviderRepository.update_provider vault now st idx cfg =
          .error (.valueError msgProviderNotFound) ∧
        AIProviderRepository.remove_provider now st idx =
          .error (.valueError msgProviderNotFound))
  ∧ (∀ s, st = some s → -(s.providers.length : Int) ≤ idx →
      idx < (s.providers.length : Int) →
      ((AIProviderRepository.update_provider vault now st idx cfg).map
          (fun s1 => s1.providers.length)) = .ok s.providers.length ∧
      ((AIProviderRepository.remove_provider now st idx).map
          (fun s2 => s2.providers.length + 1)) = .ok s.providers.length)
  ∧ (∀ s, st = some s → idx < -(s.providers.length : Int) →
      AIProviderRepository.update_provider vault now st idx cfg =
          .error (.indexError msgIndexOutOfRange) ∧
        AIProviderRepository.remove_provider now st idx =
          .error (.indexError msgIndexOutOfRange)) := by
  refine ⟨?_, ?_, ?_⟩
  · rintro (hnone | ⟨s, hs, hlen⟩)
    · subst hnone
      exact ⟨rfl, rfl⟩
    · subst hs
      constructor
      · simp [AIProviderRepository.update_provider, hlen]
      · simp [AIProviderRepository.remove_provider, hlen]
  · intro s hs hge hlt
    subst hs
    have hnotle : ¬ (s.providers.length : Int) ≤ idx := by omega
    have hpy : ∃ i, pyIndex s.providers.length idx = some i ∧ i < s.providers.length := by
      unfold pyIndex
      by_cases h0 : 0 ≤ idx
      · rw [if_pos h0, if_pos hlt]
        exact ⟨idx.toNat, rfl, by omega⟩
      · rw [if_neg h0, if_pos (by omega)]
        exact ⟨(idx + s.providers.length).toNat, rfl, by omega⟩
    obtain ⟨i, hi, hilt⟩ := hpy
    have hp : s.providers[i]? = some s.providers[i] := List.getElem?_eq_getElem hilt
    have herase : (s.providers.eraseIdx i).length + 1 = s.providers.length :=
      List.length_eraseIdx_add_one hilt
    constructor
    · by_cases hkey : cfg.api_key = "" <;> by_cases hd : cfg.is_default = true <;>
        simp [AIProviderRepository.update_provider, hnotle, hi, hkey, hd,
          clearOthers_length, List.length_set, Except.map]
    · rcases he2 : s.providers.eraseIdx i with _ | ⟨p0, rest⟩
      · rw [he2] at herase
        simp only [List.length_nil] at herase
        by_cases hd : s.providers[i].is_default = true <;>
          simp [AIProviderRepository.remove_provider, hnotle, hi, hp, he2, hd, herase,
            Except.map]
      · rw [he2] at herase
        simp only [List.length_cons] at herase
        by_cases hd : s.providers[i].is_default = true <;>
          simp [AIProviderRepository.remove_provider, hnotle, hi, hp, he2, hd,
            Except.map] <;>
          omega
  · intro s hs hidx
    subst hs
    have hnotle : ¬ (s.providers.length : Int) ≤ idx := by omega
    have hpy : pyIndex s.providers.length idx = none := by
      unfold pyIndex
      rw [if_neg (by omega), if_neg (by omega)]
    constructor
    · simp [AIProviderRepository.update_provider, hnotle, hpy]
    · simp [AIProviderRepository.remove_provider, hnotle, hpy]

/-- C4 counterexample: on an aggregate with one provider, index `-1`
passes the `provider_index >= len(providers)` check and both operations
succeed (Python indexing from the end), refuting the claim that every
negative index fails with NotFound. -/
theorem negative_index_update_succeeds :
    (AIProviderRepository.update_provider vault0 2 (some sOne) (-1) cfgGeminiPlain).isOk = true
  ∧ (AIProviderRepository.remove_provider 2 (some sOne) (-1)).isOk = true := by decide

/-- C4 witness: the characterization at concrete inputs — a valid index,
an index past the end, and an index below `-len`. -/
theorem update_remove_index_bounds_witness :
    ((AIProviderRepository.update_provider vault0 2 (some sOne) 0 cfgGeminiPlain).map
        (fun s1 => s1.providers.length)) = .ok sOne.providers.length
  ∧ AIProviderRepository.remove_provider 2 (some sOne) 5 =
      .error (.valueError msgProviderNotFound)
  ∧ AIProviderRepository.update_provider vault0 2 (some sOne) (-2) cfgGeminiPlain =
      .error (.indexError msgIndexOutOfRange) :=
  ⟨((update_remove_index_bounds vault0 2 (some sOne) 0 cfgGeminiPlain).2.1 sOne rfl
      (by decide) (by decide)).1,
   ((update_remove_index_bounds vault0 2 (some sOne) 5 cfgGeminiPlain).1
      (Or.inr ⟨sOne, rfl, by decide⟩)).2,
   ((update_remove_index_bounds vault0 2 (some sOne) (-2) cfgGeminiPlain).2.2 sOne rfl
      (by decide)).1⟩

/-- C5 (confirmed): with providers `[A(default), B]`, removing index 0
yields `[B]` with `B` marked default and the aggregate default field set
to `B`'s kind; removing the sole remaining provider then yields an empty
list and a cleared default field. -/
theorem remove_provider_default_promotion (now now2 : Nat)
    (s : UserAISettingsInDB) (A B : AIProviderConfig)
    (hp : s.providers = [A, B]) (hA : A.is_default = true) :
    ∃ s1 s2,
      AIProviderRepository.remove_provider now (some s) 0 = .ok s1 ∧
      s1.providers = [{ B with is_default := true }] ∧
      s1.default_provider = some B.provider ∧
      AIProviderRepository.remove_provider now2 (some s1) 0 = .ok s2 ∧
      s2.providers = [] ∧
      s2.default_provider = none := by
  use ({ s with
    providers := [{ B with is_default := true }]
    default_provider := some B.provider
    updated_at := now })
  use ({ s with providers := [], default_provider := none, updated_at := now2 })
  refine ⟨?_, rfl, rfl, ?_, rfl, rfl⟩
  · simp [AIProviderRepository.remove_provider, hp, hA, pyIndex, List.eraseIdx]
  · simp [AIProviderRepository.remove_provider, pyIndex, List.eraseIdx]

/-- C5 witness: the two-step promotion evaluated on a concrete aggregate
holding a default Gemini entry followed by an OpenAI entry. -/
theorem remove_provider_default_promotion_witness :
    ∃ s1 s2,
      AIProviderRepository.remove_provider 7 (some sTwo) 0 = .ok s1 ∧
      s1.providers = [{ cfgStoredOpenai with is_default := true }] ∧
      s1.default_provider = some cfgStoredOpenai.provider ∧
      AIProviderRepository.remove_provider 8 (some s1) 0 = .ok s2 ∧
      s2.providers = [] ∧
      s2.default_provider = none :=
  remove_provider_default_promotion 7 8 sTwo cfgStoredGemini cfgStoredOpenai rfl rfl

theorem findActive_eq_none (vault : Vault) (target : AIProviderType) :
    ∀ l : List AIProviderConfig,
      (∀ p ∈ l, p.provider = target → p.is_active = false) →
      findActive vault target l = none := by
  intro l
  induction l with
  | nil =>
    intro _
    rfl
  | cons p rest ih =>
    intro h
    rw [findActive, if_neg ?_]
    · exact ih (fun q hq hq2 => h q (List.mem_cons_of_mem p hq) hq2)
    · rintro ⟨h1, h2⟩
      have hfalse := h p (List.mem_cons_self p rest) h1
      rw [hfalse] at h2
      exact Bool.false_ne_true h2

theorem findActive_exists (vault : Vault) (target : AIProviderType) :
    ∀ l : List AIProviderConfig,
      (∃ p ∈ l, p.provider = target ∧ p.is_active = true) →
      ∃ q ∈ l, q.provider = target ∧ q.is_active = true ∧
        findActive vault target l = some { q with api_key := vault.decrypt q.api_key } := by
  intro l
  induction l with
  | nil =>
    rintro ⟨p, hp, _⟩
    cases hp
  | cons r rest ih =>
    rintro ⟨p, hp, hp1, hp2⟩
    by_cases hr : r.provider = target ∧ r.is_active = true
    · exact ⟨r, List.mem_cons_self r rest, hr.1, hr.2, by rw [findActive, if_pos hr]⟩
    · have hpr : p ∈ rest := by
        rcases List.mem_cons.mp hp with h | h
        · subst h
          exact absurd ⟨hp1, hp2⟩ hr
        · exact h
      obtain ⟨q, hq, hq1, hq2, hq3⟩ := ih ⟨p, hpr, hp1, hp2⟩
      exact ⟨q, List.mem_cons_of_mem r hq, hq1, hq2, by
        rw [findActive, if_neg hr]
        exact hq3⟩

theorem findActive_first (vault : Vault) (target : AIProviderType) :
    ∀ (l1 l2 : List AIProviderConfig) (p : AIProviderConfig),
      (∀ q ∈ l1, q.provider = target → q.is_active = false) →
      p.provider = target → p.is_active = true →
      findActive vault target (l1 ++ p :: l2) =
        some { p with api_key := vault.decrypt p.api_key } := by
  intro l1
  induction l1 with
  | nil =>
    intro l2 p _ hp1 hp2
    rw [List.nil_append, findActive, if_pos ⟨hp1, hp2⟩]
  | cons r rest ih =>
    intro l2 p h hp1 hp2
    rw [List.cons_append, findActive, if_neg ?_]
    · exact ih l2 p (fun q hq hq2 => h q (List.mem_cons_of_mem r hq) hq2) hp1 hp2
    · rintro ⟨h1, h2⟩
      have hfalse := h r (List.mem_cons_self r rest) h1
      rw [hfalse] at h2
      exact Bool.false_ne_true h2

/-- C6 (confirmed): `get_active_provider` returns none when the user has
no settings, when the provider list is empty, and when neither an
explicit kind nor a recorded default exists; with a resolved target kind
it returns none when no entry of that kind is active, and when an active
entry of that kind exists it returns some matching stored entry copied
with the key decrypted (the stored aggregate itself is never written by
this operation, which the embedding reflects by returning no state). -/
theorem get_active_provider_resolution (vault : Vault)
    (st : Option UserAISettingsInDB) (provider_type : Option AIProviderType) :
    (st = none → AIProviderRepository.get_active_provider vault st provider_type = none)
  ∧ (∀ s, st = some s → s.providers = [] →
      AIProviderRepository.get_active_provider vault st provider_type = none)
  ∧ (∀ s, st = some s → provider_type = none → s.default_provider = none →
      AIProviderRepository.get_active_provider vault st provider_type = none)
  ∧ (∀ s target, st = some s → resolvedKind provider_type s = some target →
      (∀ p ∈ s.providers, p.provider = target → p.is_active = false) →
      AIProviderRepository.get_active_provider vault st provider_type = none)
  ∧ (∀ s target, st = some s → resolvedKind provider_type s = some target →
      (∃ p ∈ s.providers, p.provider = target ∧ p.is_active = true) →
      ∃ q ∈ s.providers, q.provider = target ∧ q.is_active = true ∧
        AIProviderRepository.get_active_provider vault st provider_type =
          some { q with api_key := vault.decrypt q.api_key }) := by
  refine ⟨fun h => by rw [h]; rfl, ?_, ?_, ?_, ?_⟩
  · intro s hs hp
    subst hs
    simp [AIProviderRepository.get_active_provider, hp]
  · intro s hs h1 h2
    subst hs
    by_cases hp : s.providers = []
    · simp [AIProviderRepository.get_active_provider, hp]
    · simp [AIProviderRepository.get_active_provider, hp, resolvedKind, h1, h2,
        Option.orElse]
  · intro s target hs hres hnone
    subst hs
    by_cases hp : s.providers = []
    · simp [AIProviderRepository.get_active_provider, hp]
    · simp [AIProviderRepository.get_active_provider, hp, hres]
      exact findActive_eq_none vault target s.providers hnone
  · intro s target hs hres hex
    subst hs
    obtain ⟨q, hq, hq1, hq2, hq3⟩ := findActive_exists vault target s.providers hex
    have hpne : ¬ s.providers = [] := by
      intro hnil
      rw [hnil] at hq
      cases hq
    refine ⟨q, hq, hq1, hq2, ?_⟩
    simp [AIProviderRepository.get_active_provider, hpne, hres, hq3]

/-- C6 witness: resolution evaluated with no settings, with an empty
fresh aggregate, and with an active default entry present. -/
theorem get_active_provider_resolution_witness :
    AIProviderRepository.get_active_provider vault0 none (some .gemini) = none
  ∧ AIProviderRepository.get_active_provider vault0
      (some (AIProviderRepository.create_user_settings userU 1)) none = none
  ∧ (∃ q ∈ sTwo.providers, q.provider = .gemini ∧ q.is_active = true ∧
      AIProviderRepository.get_active_provider vault0 (some sTwo) none =
        some { q with api_key := vault0.decrypt q.api_key }) :=
  ⟨(get_active_provider_resolution vault0 none (some .gemini)).1 rfl,
   (get_active_provider_resolution vault0
      (some (AIProviderRepository.create_user_settings userU 1)) none).2.1
      (AIProviderRepository.create_user_settings userU 1) rfl rfl,
   (get_active_provider_resolution vault0 (some sTwo) none).2.2.2.2 sTwo .gemini
      rfl (by decide) ⟨cfgStoredGemini, by decide, by decide, by decide⟩⟩

/-- C9 (confirmed): when several entries of the resolved kind are marked
active, `get_active_provider` returns the one at the smallest list index:
for a provider list split as `l1 ++ p :: l2` with no active entry of the
kind in `l1` and `p` an active match, the result is the decrypted copy of
`p`, whatever matches `l2` holds. -/
theorem get_active_provider_earliest_match (vault : Vault)
    (s : UserAISettingsInDB) (provider_type : Option AIProviderType)
    (target : AIProviderType) (l1 l2 : List AIProviderConfig) (p : AIProviderConfig)
    (hres : resolvedKind provider_type s = some target)
    (hsplit : s.providers = l1 ++ p :: l2)
    (hl1 : ∀ q ∈ l1, q.provider = target → q.is_active = false)
    (hp1 : p.provider = target) (hp2 : p.is_active = true) :
    AIProviderRepository.get_active_provider vault (some s) provider_type =
      some { p with api_key := vault.decrypt p.api_key } := by
  have hfa := findActive_first vault target l1 l2 p hl1 hp1 hp2
  simp [AIProviderRepository.get_active_provider, hres, hsplit, hfa]

/-- C9 witness: with two active Gemini entries the first one (the
earliest inserted) is returned. -/
theorem get_active_provider_earliest_match_witness :
    AIProviderRepository.get_active_provider vault0 (some sDup) none =
      some { cfgStoredGemini with api_key := vault0.decrypt cfgStoredGemini.api_key } :=
  get_active_provider_earliest_match vault0 sDup none .gemini [] [cfgStoredGemini2]
    cfgStoredGemini (by decide) rfl
    (fun q hq _ => absurd hq (List.not_mem_nil q)) rfl rfl

theorem singleDefaultOK_some (s : UserAISettingsInDB) :
    singleDefaultOK (some s) = true ↔
      (s.providers = [] ∨ defaultCount s.providers = 1) := by
  simp only [singleDefaultOK, Bool.and_eq_true, Bool.or_eq_true, decide_eq_true_eq,
    List.isEmpty_iff]
  constructor
  · rintro ⟨h1, h2 | h3⟩
    · exact Or.inl h2
    · exact Or.inr h3
  · rintro (h | h)
    · refine ⟨?_, Or.inl h⟩
      rw [h]
      decide
    · exact ⟨by omega, Or.inr h⟩

theorem defaultCount_append (a b : List AIProviderConfig) :
    defaultCount (a ++ b) = defaultCount a + defaultCount b := by
  induction a with
  | nil => simp [defaultCount]
  | cons p rest ih =>
    simp [defaultCount, ih]
    omega

theorem defaultCount_clearAll (l : List AIProviderConfig) :
    defaultCount (l.map (fun p => { p with is_default := false })) = 0 := by
  induction l with
  | nil => rfl
  | cons p rest ih => simpa [defaultCount] using ih

theorem defaultCount_clearOthers_lt (idx : Int) :
    ∀ (l : List AIProviderConfig) (j : Nat), idx < (j : Int) →
      defaultCount (clearOthers idx j l) = 0 := by
  intro l
  induction l with
  | nil =>
    intro j _
    rfl
  | cons p rest ih =>
    intro j hj
    rw [clearOthers, if_pos (by omega : (j : Int) ≠ idx)]
    have ht := ih (j + 1) (by push_cast; omega)
    simp [defaultCount, ht]

theorem defaultCount_clearOthers_le (idx : Int) :
    ∀ (l : List AIProviderConfig) (j : Nat), (j : Int) ≤ idx →
      defaultCount (clearOthers idx j l) =
        (match l[(idx - (j : Int)).toNat]? with
         | some p => if p.is_default then 1 else 0
         | none => 0) := by
  intro l
  induction l with
  | nil =>
    intro j _
    simp [clearOthers, defaultCount]
  | cons p rest ih =>
    intro j hj
    by_cases hje : (j : Int) = idx
    · rw [clearOthers, if_neg (by omega)]
      have h0 : ((idx - (j : Int)).toNat) = 0 := by omega
      rw [h0]
      have ht := defaultCount_clearOthers_lt idx rest (j + 1) (by push_cast; omega)
      simp [defaultCount, ht, List.getElem?_cons_zero]
    · rw [clearOthers, if_pos (by omega)]
      have ht := ih (j + 1) (by push_cast; omega)
      have hsucc : ((idx - (j : Int)).toNat) = ((idx - ((j + 1 : Nat) : Int)).toNat) + 1 := by
        push_cast
        omega
      rw [hsucc]
      simp [defaultCount, ht, List.getElem?_cons_succ]

theorem defaultCount_set (q : AIProviderConfig) :
    ∀ (l : List AIProviderConfig) (i : Nat) (p : AIProviderConfig),
      l[i]? = some p →
      defaultCount (l.set i q) + (if p.is_default then 1 else 0)
        = defaultCount l + (if q.is_default then 1 else 0) := by
  intro l
  induction l with
  | nil =>
    intro i p hp
    simp at hp
  | cons a rest ih =>
    intro i p hp
    cases i with
    | zero =>
      rw [List.getElem?_cons_zero] at hp
      injection hp with hp
      subst hp
      simp [List.set, defaultCount]
      omega
    | succ n =>
      rw [List.getElem?_cons_succ] at hp
      have ht := ih n p hp
      simp [List.set, defaultCount]
      omega

theorem defaultCount_eraseIdx :
    ∀ (l : List AIProviderConfig) (i : Nat) (p : AIProviderConfig),
      l[i]? = some p →
      defaultCount (l.eraseIdx i) + (if p.is_default then 1 else 0)
        = defaultCount l := by
  intro l
  induction l with
  | nil =>
    intro i p hp
    simp at hp
  | cons a rest ih =>
    intro i p hp
    cases i with
    | zero =>
      rw [List.getElem?_cons_zero] at hp
      injection hp with hp
      subst hp
      simp [List.eraseIdx, defaultCount]
      omega
    | succ n =>
      rw [List.getElem?_cons_succ] at hp
      have ht := ih n p hp
      simp [List.eraseIdx, defaultCount]
      omega

theorem defaultCount_setKind (kind : AIProviderType) :
    ∀ l : List AIProviderConfig,
      defaultCount (l.map (fun p =>
        if p.provider = kind then { p with is_default := true }
        else { p with is_default := false })) = kindCount kind l := by
  intro l
  induction l with
  | nil => rfl
  | cons p rest ih =>
    by_cases hp : p.provider = kind <;>
      simp [defaultCount, kindCount, hp, ih]

theorem kindCount_pos (kind : AIProviderType) :
    ∀ l : List AIProviderConfig,
      l.any (fun p => decide (p.provider = kind)) = true → 0 < kindCount kind l := by
  intro l
  induction l with
  | nil =>
    intro hcontra
    cases hcontra
  | cons p rest ih =>
    intro h
    rw [List.any_cons, Bool.or_eq_true] at h
    by_cases hp : p.provider = kind
    · simp [kindCount, hp]
    · rcases h with h1 | h2
      · exact absurd (of_decide_eq_true h1) hp
      · have := ih h2
        simp [kindCount, hp]
        omega

theorem pyIndex_lt (n : Nat) (idx : Int) (i : Nat) (h : pyIndex n idx = some i) :
    i < n := by
  unfold pyIndex at h
  by_cases h0 : 0 ≤ idx
  · rw [if_pos h0] at h
    by_cases h1 : idx < (n : Int)
    · rw [if_pos h1] at h
      injection h with h
      omega
    · rw [if_neg h1] at h
      cases h
  · rw [if_neg h0] at h
    by_cases h1 : 0 ≤ idx + (n : Int)
    · rw [if_pos h1] at h
      injection h with h
      omega
    · rw [if_neg h1] at h
      cases h

theorem add_provider_defaultCount (vault : Vault) (now : Nat) (uid : String)
    (st : Option UserAISettingsInDB) (cfg : AIProviderConfig)
    (h : singleDefaultOK st = true) :
    defaultCount (AIProviderRepository.add_provider vault now uid st cfg).providers = 1 := by
  cases st with
  | none =>
    simp [AIProviderRepository.add_provider, AIProviderRepository.create_user_settings,
      defaultCount]
  | some s =>
    by_cases hnil : s.providers = []
    · simp [AIProviderRepository.add_provider, hnil, defaultCount]
    · have hcount : defaultCount s.providers = 1 := by
        rw [singleDefaultOK_some] at h
        rcases h with h | h
        · exact absurd h hnil
        · exact h
      by_cases hd : cfg.is_default = true
      · simp [AIProviderRepository.add_provider, hd, defaultCount_append,
          defaultCount_clearAll, defaultCount]
      · have hc : ¬ (s.providers.length + 1 = 1) := by
          have := List.length_eq_zero.not.mpr hnil
          omega
        simp [AIProviderRepository.add_provider, hd, hc, defaultCount_append,
          defaultCount, hcount]

theorem update_ok_singleDefault (vault : Vault) (now : Nat)
    (st : Option UserAISettingsInDB) (idx : Int) (cfg : AIProviderConfig)
    (s' : UserAISettingsInDB)
    (h : singleDefaultOK st = true)
    (hg : opGuard st (ProviderOp.update idx cfg) = true)
    (hok : AIProviderRepository.update_provider vault now st idx cfg = .ok s') :
    singleDefaultOK (some s') = true := by
  cases st with
  | none => exact absurd hok (by simp [AIProviderRepository.update_provider])
  | some s =>
    simp only [opGuard, Bool.and_eq_true, Bool.or_eq_true, decide_eq_true_eq] at hg
    obtain ⟨h0, hrest⟩ := hg
    by_cases hle : (s.providers.length : Int) ≤ idx
    · exact absurd hok (by simp [AIProviderRepository.update_provider, hle])
    · have hi : pyIndex s.providers.length idx = some idx.toNat := by
        unfold pyIndex
        rw [if_pos h0, if_pos (by omega)]
      have hilt : idx.toNat < s.providers.length := by omega
      have hd2 : (if cfg.api_key ≠ "" then
          { cfg with api_key := vault.encrypt cfg.api_key } else cfg).is_default
            = cfg.is_default := by
        by_cases hkey : cfg.api_key = "" <;> simp [hkey]
      rw [AIProviderRepository.update_provider] at hok
      rw [if_neg hle] at hok
      generalize hcfg2 : (if cfg.api_key ≠ "" then
          { cfg with api_key := vault.encrypt cfg.api_key } else cfg) = cfg2 at hok hd2
      simp only [hi] at hok
      by_cases hd : cfg2.is_default = true
      · rw [if_pos hd] at hok
        injection hok with hok
        subst hok
        rw [singleDefaultOK_some]
        right
        show defaultCount (clearOthers idx 0 (s.providers.set idx.toNat cfg2)) = 1
        rw [defaultCount_clearOthers_le idx _ 0 (by omega)]
        have hidx0 : ((idx - ((0 : Nat) : Int)).toNat) = idx.toNat := by omega
        rw [hidx0]
        rw [List.getElem?_set_eq_of_lt cfg2 hilt]
        simp [hd]
      · rw [if_neg hd] at hok
        injection hok with hok
        subst hok
        rw [singleDefaultOK_some]
        right
        show defaultCount (s.providers.set idx.toNat cfg2) = 1
        have hcfgd : cfg.is_default = false := by
          rw [← hd2]
          exact Bool.not_eq_true _ |>.mp hd
        have hpd : (s.providers[idx.toNat]).is_default = false := by
          rcases hrest with h1 | h1
          · rw [h1] at hcfgd
            cases hcfgd
          · rw [List.get?_eq_getElem?, List.getElem?_eq_getElem hilt] at h1
            simpa using h1
        have hset := defaultCount_set cfg2 s.providers idx.toNat
          (s.providers[idx.toNat]) (List.getElem?_eq_getElem hilt)
        have hcount : defaultCount s.providers = 1 := by
          rw [singleDefaultOK_some] at h
          rcases h with hcontra | hcount1
          · rw [hcontra] at hilt
            simp at hilt
          · exact hcount1
        rw [hpd, hcount] at hset
        rw [← hd2] at hcfgd
        rw [hcfgd] at hset
        simpa using hset


theorem remove_ok_singleDefault (now : Nat)
    (st : Option UserAISettingsInDB) (idx : Int) (s' : UserAISettingsInDB)
    (h : singleDefaultOK st = true)
    (hok : AIProviderRepository.remove_provider now st idx = .ok s') :
    singleDefaultOK (some s') = true := by
  cases st with
  | none => exact absurd hok (by simp [AIProviderRepository.remove_provider])
  | some s =>
    by_cases hle : (s.providers.length : Int) ≤ idx
    · exact absurd hok (by simp [AIProviderRepository.remove_provider, hle])
    · rcases hpy : pyIndex s.providers.length idx with _ | i
      · exact absurd hok (by simp [AIProviderRepository.remove_provider, hle, hpy])
      · have hilt : i < s.providers.length := pyIndex_lt _ _ _ hpy
        have hp : s.providers[i]? = some s.providers[i] := List.getElem?_eq_getElem hilt
        have hcount : defaultCount s.providers = 1 := by
          rw [singleDefaultOK_some] at h
          rcases h with hc | hc
          · rw [hc] at hilt
            simp at hilt
          · exact hc
        have herase := defaultCount_eraseIdx s.providers i (s.providers[i]) hp
        by_cases hd : (s.providers[i]).is_default = true
        · rcases he : s.providers.eraseIdx i with _ | ⟨p0, rest⟩
          · simp [AIProviderRepository.remove_provider, hle, hpy, hp, hd, he] at hok
            subst hok
            rw [singleDefaultOK_some]
            left
            rfl
          · simp [AIProviderRepository.remove_provider, hle, hpy, hp, hd, he] at hok
            subst hok
            rw [singleDefaultOK_some]
            right
            rw [he, hd, hcount] at herase
            simp only [defaultCount] at herase ⊢
            simp only [if_true]
            simp at herase ⊢
            omega
        · rcases he : s.providers.eraseIdx i with _ | ⟨p0, rest⟩
          · simp [AIProviderRepository.remove_provider, hle, hpy, hp, hd, he] at hok
            subst hok
            rw [singleDefaultOK_some]
            left
            rfl
          · simp [AIProviderRepository.remove_provider, hle, hpy, hp, hd, he] at hok
            subst hok
            rw [singleDefaultOK_some]
            right
            rw [he, hcount] at herase
            rw [Bool.not_eq_true] at hd
            rw [hd] at herase
            simpa using herase

theorem setDefault_ok_singleDefault (now : Nat)
    (st : Option UserAISettingsInDB) (kind : AIProviderType) (s' : UserAISettingsInDB)
    (hg : opGuard st (ProviderOp.setDefault kind) = true)
    (hok : AIProviderRepository.set_default_provider now st kind = .ok s') :
    singleDefaultOK (some s') = true := by
  cases st with
  | none => exact absurd hok (by simp [AIProviderRepository.set_default_provider])
  | some s =>
    simp only [opGuard, decide_eq_true_eq] at hg
    by_cases hfound : s.providers.any (fun p => decide (p.provider = kind)) = true
    · have hpos := kindCount_pos kind s.providers hfound
      simp only [AIProviderRepository.set_default_provider, hfound,
        Bool.true_eq_false, if_false, Except.ok.injEq] at hok
      subst hok
      rw [singleDefaultOK_some]
      right
      show defaultCount (s.providers.map (fun p =>
        if p.provider = kind then { p with is_default := true }
        else { p with is_default := false })) = 1
      rw [defaultCount_setKind]
      omega
    · rw [Bool.not_eq_true] at hfound
      exact absurd hok (by simp [AIProviderRepository.set_default_provider, hfound])

theorem applyOp_singleDefault (vault : Vault) (now : Nat) (uid : String)
    (st : Option UserAISettingsInDB) (op : ProviderOp)
    (h : singleDefaultOK st = true) (hg : opGuard st op = true) :
    singleDefaultOK (applyOp vault now uid st op) = true := by
  cases op with
  | add cfg =>
    rw [applyOp, singleDefaultOK_some]
    exact Or.inr (add_provider_defaultCount vault now uid st cfg h)
  | update idx cfg =>
    rw [applyOp]
    rcases hok : AIProviderRepository.update_provider vault now st idx cfg with e | s2
    · exact h
    · exact update_ok_singleDefault vault now st idx cfg s2 h hg hok
  | remove idx =>
    rw [applyOp]
    rcases hok : AIProviderRepository.remove_provider now st idx with e | s2
    · exact h
    · exact remove_ok_singleDefault now st idx s2 h hok
  | setDefault kind =>
    rw [applyOp]
    rcases hok : AIProviderRepository.set_default_provider now st kind with e | s2
    · exact h
    · exact setDefault_ok_singleDefault now st kind s2 hg hok

theorem runOps_singleDefault (vault : Vault) (now : Nat) (uid : String) :
    ∀ (ops : List ProviderOp) (st : Option UserAISettingsInDB),
      singleDefaultOK st = true →
      guardsHold vault now uid st ops = true →
      singleDefaultOK (runOps vault now uid st ops) = true := by
  intro ops
  induction ops with
  | nil =>
    intro st h _
    exact h
  | cons op rest ih =>
    intro st h hg
    rw [guardsHold, Bool.and_eq_true] at hg
    exact ih (applyOp vault now uid st op)
      (applyOp_singleDefault vault now uid st op h hg.1) hg.2

/-- C1 (amended): starting from no settings, any sequence of repository
operations preserves the single-default property (at most one entry
default, exactly one whenever the list is non-empty) provided each
`update_provider` call uses a non-negative index and does not demote the
entry it replaces when that entry is the default, and each
`set_default_provider` call targets a kind configured at most once;
`add_provider` and `remove_provider` need no side condition. -/
theorem single_default_invariant (vault : Vault) (now : Nat) (user_id : String)
    (ops : List ProviderOp)
    (hg : guardsHold vault now user_id none ops = true) :
    singleDefaultOK (runOps vault now user_id none ops) = true :=
  runOps_singleDefault vault now user_id ops none rfl hg

/-- C1 counterexample: the unguarded claim is false — updating the sole
(default) provider with a config whose default flag is cleared leaves a
non-empty list with zero defaults, and set_default_provider with a kind
configured twice marks two entries default. -/
theorem single_default_invariant_counterexample :
    singleDefaultOK (runOps vault0 1 userU none
      [ProviderOp.add cfgGeminiDefault, ProviderOp.update 0 cfgGeminiPlain]) = false
  ∧ singleDefaultOK (runOps vault0 1 userU none
      [ProviderOp.add cfgGeminiDefault, ProviderOp.add cfgGeminiPlain,
        ProviderOp.setDefault .gemini]) = false := by decide

/-- C1 witness: a concrete guarded run exercising add, set-default,
remove and update ends in a state satisfying the single-default
property. -/
theorem single_default_invariant_witness :
    guardsHold vault0 1 userU none opsW = true
  ∧ singleDefaultOK (runOps vault0 1 userU none opsW) = true :=
  ⟨by decide, single_default_invariant vault0 1 userU opsW (by decide)⟩
